import Mathlib

/-! The record-dispatch building blocks of `curl_fuzzer.h` (curl-fuzzer).

A shallow embedding of the data model (`TLV`, `FUZZ_RESPONSE`, `FUZZ_DATA`) and of the
statement-like definitions `FTRY`, `FCHECK`, `FSET_OPTION`, `FCHECK_OPTION_UNSET`,
`FSINGLETONTLV`, `FRESPONSETLV` and `FU32TLV` of `src/curl_fuzzer.h`.

Conventions of the embedding.

* C arrays of fixed size `n` are functions on `Fin n`; an access at an index that is
  not below `n` has no defined behaviour in C and is modelled by the result `none`.
* A pointer into the input buffer (`tlv->value`, `responses[i].data`) is modelled by
  the bytes it addresses.
* The transfer engine (libcurl) is an external collaborator.  Its handle is modelled
  by the trace of set-option calls it has received, and its status codes by an
  arbitrary function `engine` of the trace, the option and the value.
* The statements run inside `fuzz_parse_tlv`, whose local variable `rc` and label
  `EXIT_LABEL` they use.  A statement either lets control continue (`Flow.next`) or
  assigns `rc` and jumps to `EXIT_LABEL` (`Flow.exit`).
-/

namespace CurlFuzzer

/-! ## Constants of `curl_fuzzer.h` -/

abbrev TLV_TYPE_URL : Nat := 1
abbrev TLV_TYPE_RESPONSE0 : Nat := 2
abbrev TLV_TYPE_USERNAME : Nat := 3
abbrev TLV_TYPE_PASSWORD : Nat := 4
abbrev TLV_TYPE_POSTFIELDS : Nat := 5
abbrev TLV_TYPE_HEADER : Nat := 6
abbrev TLV_TYPE_COOKIE : Nat := 7
abbrev TLV_TYPE_UPLOAD1 : Nat := 8
abbrev TLV_TYPE_RANGE : Nat := 9
abbrev TLV_TYPE_CUSTOMREQUEST : Nat := 10
abbrev TLV_TYPE_MAIL_RECIPIENT : Nat := 11
abbrev TLV_TYPE_MAIL_FROM : Nat := 12
abbrev TLV_TYPE_MIME_PART : Nat := 13
abbrev TLV_TYPE_MIME_PART_NAME : Nat := 14
abbrev TLV_TYPE_MIME_PART_DATA : Nat := 15
abbrev TLV_TYPE_HTTPAUTH : Nat := 16
abbrev TLV_TYPE_RESPONSE1 : Nat := 17
abbrev TLV_TYPE_RESPONSE2 : Nat := 18
abbrev TLV_TYPE_RESPONSE3 : Nat := 19
abbrev TLV_TYPE_RESPONSE4 : Nat := 20
abbrev TLV_TYPE_RESPONSE5 : Nat := 21
abbrev TLV_TYPE_RESPONSE6 : Nat := 22
abbrev TLV_TYPE_RESPONSE7 : Nat := 23
abbrev TLV_TYPE_RESPONSE8 : Nat := 24
abbrev TLV_TYPE_RESPONSE9 : Nat := 25
abbrev TLV_TYPE_RESPONSE10 : Nat := 26
abbrev TLV_TYPE_OPTHEADER : Nat := 27
abbrev TLV_TYPE_NOBODY : Nat := 28
abbrev TLV_TYPE_FOLLOWLOCATION : Nat := 29
abbrev TLV_TYPE_ACCEPTENCODING : Nat := 30

abbrev TLV_RC_NO_ERROR : Int := 0
abbrev TLV_RC_NO_MORE_TLVS : Int := 1
abbrev TLV_RC_SIZE_ERROR : Int := 2

/-- Temporary write array size. -/
abbrev TEMP_WRITE_ARRAY_SIZE : Nat := 10

/-- Number of supported responses. -/
abbrev TLV_MAX_NUM_RESPONSES : Nat := 11

/-- Space variable for all CURLOPTs. -/
abbrev FUZZ_CURLOPT_TRACKER_SPACE : Nat := 300

/-- Option identifier of libcurl (`curl/curl.h`, an external header): `CURLOPT_URL` is
the string option number 2, that is 10000 + 2. -/
abbrev CURLOPT_URL : Nat := 10002

/-- Option identifier of libcurl (`curl/curl.h`, an external header): `CURLOPT_HTTPAUTH`
is the integer option number 107. -/
abbrev CURLOPT_HTTPAUTH : Nat := 107

/-! ## Data model -/

/-- A byte, `uint8_t`. -/
abbrev uint8_t : Type := Fin 256

inductive FUZZ_SOCK_STATE where
  | FUZZ_SOCK_CLOSED
  | FUZZ_SOCK_OPEN
  | FUZZ_SOCK_SHUTDOWN
  deriving DecidableEq, Repr

/-- The parsed record `TLV`: `type` is 16 bits wide, `length` 32 bits wide, and `value`
(a pointer in C) is given by the bytes it addresses. -/
structure TLV where
  type : Nat
  length : Nat
  value : List uint8_t
  deriving DecidableEq, Repr

/-- Internal state when parsing a TLV data stream. -/
structure FUZZ_PARSE_STATE where
  data : List uint8_t
  data_len : Nat
  data_pos : Nat
  deriving DecidableEq, Repr

/-- Structure to use for responses: the `{data, data_len}` view. -/
structure FUZZ_RESPONSE where
  data : List uint8_t
  data_len : Nat
  deriving DecidableEq, Repr

/-- A `char *`: either the null pointer or the bytes of the buffer it addresses
(terminator included). -/
inductive CharPtr where
  | NULL
  | str (bytes : List uint8_t)
  deriving DecidableEq, Repr

/-- The third argument of `curl_easy_setopt` at the call sites of the header: a
`char *` (from `FSINGLETONTLV`) or a `uint32_t` (from `FU32TLV`). -/
inductive OptValue where
  | string (p : CharPtr)
  | u32 (n : Nat)
  deriving DecidableEq, Repr

/-- One call of the engine's set-option. -/
structure SetoptCall where
  OPTNAME : Nat
  OPTVALUE : OptValue
  deriving DecidableEq, Repr

/-- The engine handle `CURL *`, modelled by the set-option calls it has received,
oldest first. -/
abbrev CURL : Type := List SetoptCall

/-- The status the external engine returns for a set-option call, as a function of
the calls received before, the option and the value. -/
abbrev EngineStatus : Type := CURL → Nat → OptValue → Int

/-- Data local to a fuzzing run. -/
structure FUZZ_DATA where
  easy : CURL
  state : FUZZ_PARSE_STATE
  write_array : Fin TEMP_WRITE_ARRAY_SIZE → uint8_t
  responses : Fin TLV_MAX_NUM_RESPONSES → FUZZ_RESPONSE
  response_index : Int
  upload1_data : List uint8_t
  upload1_data_len : Nat
  upload1_data_written : Nat
  options : Fin FUZZ_CURLOPT_TRACKER_SPACE → Nat
  postfields : CharPtr
  header_list : List (List uint8_t)
  mail_recipients_list : List (List uint8_t)
  connect_to_list : List (List uint8_t)
  mime : Option Nat
  part : Option Nat
  server_fd_state : FUZZ_SOCK_STATE
  server_fd : Int
  verbose : Int

/-- Where control goes after a statement of `fuzz_parse_tlv`: on to the next statement
(for a whole `case`: out of the `switch` through `break`), or to `EXIT_LABEL` with `rc`
assigned. -/
inductive Flow where
  | next (fuzz : FUZZ_DATA)
  | exit (rc : Int) (fuzz : FUZZ_DATA)

/-! ## The engine boundary and the absent helpers -/

/-- The external call `curl_easy_setopt(easy, OPTNAME, OPTVALUE)`: the status is the
engine's, and the handle has received one more call. -/
def curl_easy_setopt (engine : EngineStatus) (easy : CURL) (OPTNAME : Nat)
    (OPTVALUE : OptValue) : Int × CURL :=
  (engine easy OPTNAME OPTVALUE, easy ++ [SetoptCall.mk OPTNAME OPTVALUE])

/-- Modelled from the spec: `to_u32` is only declared in `curl_fuzzer.h`, its body is
missing.  The spec describes it as the big-endian unsigned 32-bit decode of a
fixed-width byte array.  Reading four bytes from a view that holds fewer is a read
past the view and gives `none`. -/
def to_u32 : List uint8_t → Option Nat
  | b0 :: b1 :: b2 :: b3 :: _ =>
      some ((b0.val * 2 ^ 24 + b1.val * 2 ^ 16 + b2.val * 2 ^ 8 + b3.val) % 2 ^ 32)
  | _ => none

/-- Modelled from the spec: `fuzz_tlv_to_string` is only declared in `curl_fuzzer.h`,
its body is missing.  The spec describes it as copying the record's raw bytes into a
newly allocated, NUL-terminated buffer of exactly `length + 1` bytes.  `malloc_ok`
says whether the allocation succeeds; when it does not, the result is the null
pointer.  Copying `length` bytes from a view that holds fewer is a read past the view
and gives `none`. -/
def fuzz_tlv_to_string (malloc_ok : Bool) (tlv : TLV) : Option CharPtr :=
  if malloc_ok then
    if tlv.length ≤ tlv.value.length then
      some (CharPtr.str (tlv.value.take tlv.length ++ [0]))
    else none
  else some CharPtr.NULL

/-! ## The statements of `curl_fuzzer.h` -/

/-- `FTRY(FUNC)`: `_func_rc` is the value of `FUNC`; when it is non-zero, `rc` takes it
and control goes to `EXIT_LABEL`. -/
def FTRY (_func_rc : Int) (fuzz : FUZZ_DATA) : Flow :=
  if _func_rc ≠ 0 then Flow.exit _func_rc fuzz else Flow.next fuzz

/-- `FCHECK(COND)`: when `COND` is false, `rc = 255` and control goes to
`EXIT_LABEL`. -/
def FCHECK (COND : Bool) (fuzz : FUZZ_DATA) : Flow :=
  if !COND then Flow.exit 255 fuzz else Flow.next fuzz

/-- `FSET_OPTION(FUZZP, OPTNAME, OPTVALUE)`:
`FTRY(curl_easy_setopt((FUZZP)->easy, OPTNAME, OPTVALUE)); (FUZZP)->options[OPTNAME % 1000] = 1`.
The store is defined only inside the array of `FUZZ_CURLOPT_TRACKER_SPACE` cells. -/
def FSET_OPTION (engine : EngineStatus) (fuzz : FUZZ_DATA) (OPTNAME : Nat)
    (OPTVALUE : OptValue) : Option Flow :=
  let r := curl_easy_setopt engine fuzz.easy OPTNAME OPTVALUE
  match FTRY r.1 { fuzz with easy := r.2 } with
  | Flow.exit rc f => some (Flow.exit rc f)
  | Flow.next f =>
      if h : OPTNAME % 1000 < FUZZ_CURLOPT_TRACKER_SPACE then
        some (Flow.next { f with options := Function.update f.options ⟨OPTNAME % 1000, h⟩ 1 })
      else none

/-- `FCHECK_OPTION_UNSET(FUZZP, OPTNAME)`: `FCHECK((FUZZP)->options[OPTNAME % 1000] == 0)`.
The load is defined only inside the array of `FUZZ_CURLOPT_TRACKER_SPACE` cells. -/
def FCHECK_OPTION_UNSET (fuzz : FUZZ_DATA) (OPTNAME : Nat) : Option Flow :=
  if h : OPTNAME % 1000 < FUZZ_CURLOPT_TRACKER_SPACE then
    some (FCHECK (fuzz.options ⟨OPTNAME % 1000, h⟩ == 0) fuzz)
  else none

/-- `FSINGLETONTLV(FUZZP, TLVNAME, OPTNAME)`, as the `switch (tlv->type)` statement made
of this one `case`: a record of another type selects no case and leaves the switch
with nothing done. -/
def FSINGLETONTLV (engine : EngineStatus) (malloc_ok : Bool) (TLVNAME OPTNAME : Nat)
    (fuzz : FUZZ_DATA) (tlv : TLV) : Option Flow :=
  if tlv.type = TLVNAME then
    match FCHECK_OPTION_UNSET fuzz OPTNAME with
    | none => none
    | some (Flow.exit rc f) => some (Flow.exit rc f)
    | some (Flow.next f) =>
        match fuzz_tlv_to_string malloc_ok tlv with
        | none => none
        | some tmp => FSET_OPTION engine f OPTNAME (OptValue.string tmp)
  else some (Flow.next fuzz)

/-- `FRESPONSETLV(FUZZP, TLVNAME, INDEX)`, as the `switch (tlv->type)` statement made of
this one `case`: `responses[INDEX].data = tlv->value; responses[INDEX].data_len =
tlv->length`.  The stores are defined only inside the array of
`TLV_MAX_NUM_RESPONSES` cells. -/
def FRESPONSETLV (TLVNAME INDEX : Nat) (fuzz : FUZZ_DATA) (tlv : TLV) : Option Flow :=
  if tlv.type = TLVNAME then
    if h : INDEX < TLV_MAX_NUM_RESPONSES then
      some (Flow.next { fuzz with
        responses := Function.update fuzz.responses ⟨INDEX, h⟩
          (FUZZ_RESPONSE.mk tlv.value tlv.length) })
    else none
  else some (Flow.next fuzz)

/-- `FU32TLV(FUZZP, TLVNAME, OPTNAME)`, as the `switch (tlv->type)` statement made of
this one `case`. -/
def FU32TLV (engine : EngineStatus) (TLVNAME OPTNAME : Nat)
    (fuzz : FUZZ_DATA) (tlv : TLV) : Option Flow :=
  if tlv.type = TLVNAME then
    if tlv.length ≠ 4 then some (Flow.exit 255 fuzz)
    else
      match FCHECK_OPTION_UNSET fuzz OPTNAME with
      | none => none
      | some (Flow.exit rc f) => some (Flow.exit rc f)
      | some (Flow.next f) =>
          match to_u32 tlv.value with
          | none => none
          | some tmp_u32 => FSET_OPTION engine f OPTNAME (OptValue.u32 tmp_u32)
  else some (Flow.next fuzz)

/-- Modelled from the spec: the body of `fuzz_parse_tlv` around its `switch` is not in
`curl_fuzzer.h`.  The dispatcher returns success (0) when the selected case ends in
`break`, and the terminal code `rc` when a statement jumped to `EXIT_LABEL`.  The
result is the returned code and the run data left behind. -/
def fuzz_parse_tlv (switch_body : FUZZ_DATA → TLV → Option Flow) (fuzz : FUZZ_DATA)
    (tlv : TLV) : Option (Int × FUZZ_DATA) :=
  match switch_body fuzz tlv with
  | none => none
  | some (Flow.next f) => some (0, f)
  | some (Flow.exit rc f) => some (rc, f)

/-! ## Readers and concrete data used in the statements below -/

/-- The tracker cell `options[i]`, when `i` is inside the array. -/
def tracker_cell (fuzz : FUZZ_DATA) (i : Nat) : Option Nat :=
  if h : i < FUZZ_CURLOPT_TRACKER_SPACE then some (fuzz.options ⟨i, h⟩) else none

/-- The response slot `responses[i]`, when `i` is inside the array. -/
def response_slot (fuzz : FUZZ_DATA) (i : Nat) : Option FUZZ_RESPONSE :=
  if h : i < TLV_MAX_NUM_RESPONSES then some (fuzz.responses ⟨i, h⟩) else none

/-- Run data as an all-zero `FUZZ_DATA` with a fresh engine handle. -/
def zeroed_fuzz_data : FUZZ_DATA where
  easy := []
  state := FUZZ_PARSE_STATE.mk [] 0 0
  write_array := fun _ => 0
  responses := fun _ => FUZZ_RESPONSE.mk [] 0
  response_index := 0
  upload1_data := []
  upload1_data_len := 0
  upload1_data_written := 0
  options := fun _ => 0
  postfields := CharPtr.NULL
  header_list := []
  mail_recipients_list := []
  connect_to_list := []
  mime := none
  part := none
  server_fd_state := FUZZ_SOCK_STATE.FUZZ_SOCK_CLOSED
  server_fd := 0
  verbose := 0

/-- An engine that accepts every set-option call. -/
def engine_accept_all : EngineStatus := fun _ _ _ => 0

/-- An engine that rejects every set-option call with status `c`. -/
def engine_reject_all (c : Int) : EngineStatus := fun _ _ _ => c

/-- The record `[HTTPAUTH, 00 00 00 01]`. -/
def httpauth_record_1 : TLV := TLV.mk TLV_TYPE_HTTPAUTH 4 [0, 0, 0, 1]

/-- The record `[HTTPAUTH, 00 00 00 02]`. -/
def httpauth_record_2 : TLV := TLV.mk TLV_TYPE_HTTPAUTH 4 [0, 0, 0, 2]

/-- The record `[HTTPAUTH, 00 00 00 00 01]`, of length 5. -/
def httpauth_record_long : TLV := TLV.mk TLV_TYPE_HTTPAUTH 5 [0, 0, 0, 0, 1]

/-- The record `[URL, "x"]`. -/
def url_record_x : TLV := TLV.mk TLV_TYPE_URL 1 [120]

/-- The record `[RESPONSE0, "A"]`. -/
def response0_record_A : TLV := TLV.mk TLV_TYPE_RESPONSE0 1 [65]

/-- The record `[RESPONSE0, "BC"]`. -/
def response0_record_BC : TLV := TLV.mk TLV_TYPE_RESPONSE0 2 [66, 67]

/-- The zeroed run data after the engine took `CURLOPT_HTTPAUTH = 1`: one call in the
trace and tracker cell 107 marked. -/
def fuzz_after_httpauth : FUZZ_DATA :=
  { zeroed_fuzz_data with
    easy := [SetoptCall.mk CURLOPT_HTTPAUTH (OptValue.u32 1)]
    options := Function.update zeroed_fuzz_data.options ⟨107, by decide⟩ 1 }

/-- The zeroed run data after the engine took the null string for `CURLOPT_URL`: one
call in the trace and tracker cell 2 marked. -/
def fuzz_after_null_url : FUZZ_DATA :=
  { zeroed_fuzz_data with
    easy := [SetoptCall.mk CURLOPT_URL (OptValue.string CharPtr.NULL)]
    options := Function.update zeroed_fuzz_data.options ⟨2, by decide⟩ 1 }

/-- The run data a statement leaves behind, on either way out. -/
def Flow.data : Flow → FUZZ_DATA
  | Flow.next f => f
  | Flow.exit _ f => f

/-- A sequence of `FSET_OPTION` statements that all fall through (the engine accepted
each value and each mark was stored); `none` as soon as one does not. -/
def apply_options (engine : EngineStatus) : FUZZ_DATA → List SetoptCall → Option FUZZ_DATA
  | fuzz, [] => some fuzz
  | fuzz, c :: cs =>
      match FSET_OPTION engine fuzz c.OPTNAME c.OPTVALUE with
      | some (Flow.next f) => apply_options engine f cs
      | _ => none

/-! ## Unfolding lemmas -/

/-- `FCHECK_OPTION_UNSET` by cases on the tracker cell. -/
theorem FCHECK_OPTION_UNSET_eq (fuzz : FUZZ_DATA) (OPTNAME : Nat) :
    FCHECK_OPTION_UNSET fuzz OPTNAME =
      match tracker_cell fuzz (OPTNAME % 1000) with
      | none => none
      | some v => if v = 0 then some (Flow.next fuzz) else some (Flow.exit 255 fuzz) := by
  unfold FCHECK_OPTION_UNSET tracker_cell FCHECK
  by_cases h : OPTNAME % 1000 < FUZZ_CURLOPT_TRACKER_SPACE
  · by_cases hv : fuzz.options ⟨OPTNAME % 1000, h⟩ = 0 <;> simp [h, hv]
  · simp [h]

/-- `FSET_OPTION` when the engine returns a non-zero status. -/
theorem FSET_OPTION_rejected (engine : EngineStatus) (fuzz : FUZZ_DATA) (OPTNAME : Nat)
    (OPTVALUE : OptValue) (hc : engine fuzz.easy OPTNAME OPTVALUE ≠ 0) :
    FSET_OPTION engine fuzz OPTNAME OPTVALUE =
      some (Flow.exit (engine fuzz.easy OPTNAME OPTVALUE)
        { fuzz with easy := fuzz.easy ++ [SetoptCall.mk OPTNAME OPTVALUE] }) := by
  simp [FSET_OPTION, FTRY, curl_easy_setopt, hc]

/-- `FSET_OPTION` when the engine returns zero. -/
theorem FSET_OPTION_accepted (engine : EngineStatus) (fuzz : FUZZ_DATA) (OPTNAME : Nat)
    (OPTVALUE : OptValue) (hc : engine fuzz.easy OPTNAME OPTVALUE = 0) :
    FSET_OPTION engine fuzz OPTNAME OPTVALUE =
      if h : OPTNAME % 1000 < FUZZ_CURLOPT_TRACKER_SPACE then
        some (Flow.next { fuzz with
          easy := fuzz.easy ++ [SetoptCall.mk OPTNAME OPTVALUE]
          options := Function.update fuzz.options ⟨OPTNAME % 1000, h⟩ 1 })
      else none := by
  simp [FSET_OPTION, FTRY, curl_easy_setopt, hc]

/-- A fall-through of `FSET_OPTION` leaves the option's tracker cell at 1. -/
theorem FSET_OPTION_next_marks (engine : EngineStatus) (fuzz f : FUZZ_DATA) (OPTNAME : Nat)
    (OPTVALUE : OptValue) (h : FSET_OPTION engine fuzz OPTNAME OPTVALUE = some (Flow.next f)) :
    tracker_cell f (OPTNAME % 1000) = some 1 := by
  by_cases hc : engine fuzz.easy OPTNAME OPTVALUE = 0
  · rw [FSET_OPTION_accepted engine fuzz OPTNAME OPTVALUE hc] at h
    by_cases hi : OPTNAME % 1000 < FUZZ_CURLOPT_TRACKER_SPACE
    · simp only [hi, dite_true, Option.some.injEq, Flow.next.injEq] at h
      subst h
      simp [tracker_cell, hi]
    · simp [hi] at h
  · rw [FSET_OPTION_rejected engine fuzz OPTNAME OPTVALUE hc] at h
    simp at h

/-- An exit of `FSET_OPTION` carries a non-zero code. -/
theorem FSET_OPTION_exit_ne_zero (engine : EngineStatus) (fuzz f : FUZZ_DATA) (OPTNAME : Nat)
    (OPTVALUE : OptValue) (rc : Int)
    (h : FSET_OPTION engine fuzz OPTNAME OPTVALUE = some (Flow.exit rc f)) : rc ≠ 0 := by
  by_cases hc : engine fuzz.easy OPTNAME OPTVALUE = 0
  · rw [FSET_OPTION_accepted engine fuzz OPTNAME OPTVALUE hc] at h
    by_cases hi : OPTNAME % 1000 < FUZZ_CURLOPT_TRACKER_SPACE <;> simp [hi] at h
  · rw [FSET_OPTION_rejected engine fuzz OPTNAME OPTVALUE hc] at h
    simp only [Option.some.injEq, Flow.exit.injEq] at h
    rw [← h.1]; exact hc

/-- A singleton string record that was dispatched with result 0 left its option's
tracker cell at 1. -/
theorem FSINGLETONTLV_success_marks (engine : EngineStatus) (malloc_ok : Bool)
    (TLVNAME OPTNAME : Nat) (fuzz fuzz1 : FUZZ_DATA) (tlv : TLV) (ht : tlv.type = TLVNAME)
    (h : fuzz_parse_tlv (FSINGLETONTLV engine malloc_ok TLVNAME OPTNAME) fuzz tlv
      = some (0, fuzz1)) :
    tracker_cell fuzz1 (OPTNAME % 1000) = some 1 := by
  simp only [fuzz_parse_tlv, FSINGLETONTLV, ht, if_true, FCHECK_OPTION_UNSET_eq] at h
  cases hc : tracker_cell fuzz (OPTNAME % 1000) with
  | none => simp [hc] at h
  | some v =>
    by_cases hv : v = 0
    · cases hs : fuzz_tlv_to_string malloc_ok tlv with
      | none => simp [hc, hv, hs] at h
      | some tmp =>
        simp only [hc, hv, hs, if_true] at h
        cases hf : FSET_OPTION engine fuzz OPTNAME (OptValue.string tmp) with
        | none => simp [hf] at h
        | some fl =>
          cases fl with
          | next f =>
            simp only [hf, Option.some.injEq, Prod.mk.injEq, true_and] at h
            subst h
            exact FSET_OPTION_next_marks engine fuzz f OPTNAME _ hf
          | exit rc f =>
            simp only [hf, Option.some.injEq, Prod.mk.injEq] at h
            exact absurd h.1 (FSET_OPTION_exit_ne_zero engine fuzz f OPTNAME _ rc hf)
    · simp [hc, hv] at h

/-- A fixed-width integer record that was dispatched with result 0 left its option's
tracker cell at 1. -/
theorem FU32TLV_success_marks (engine : EngineStatus)
    (TLVNAME OPTNAME : Nat) (fuzz fuzz1 : FUZZ_DATA) (tlv : TLV) (ht : tlv.type = TLVNAME)
    (h : fuzz_parse_tlv (FU32TLV engine TLVNAME OPTNAME) fuzz tlv = some (0, fuzz1)) :
    tracker_cell fuzz1 (OPTNAME % 1000) = some 1 := by
  simp only [fuzz_parse_tlv, FU32TLV, ht, if_true, FCHECK_OPTION_UNSET_eq] at h
  by_cases hl : tlv.length = 4
  · cases hc : tracker_cell fuzz (OPTNAME % 1000) with
    | none => simp [hl, hc] at h
    | some v =>
      by_cases hv : v = 0
      · cases hs : to_u32 tlv.value with
        | none => simp [hl, hc, hv, hs] at h
        | some tmp =>
          simp only [hl, hc, hv, hs, if_true, ne_eq, not_true_eq_false, if_false] at h
          cases hf : FSET_OPTION engine fuzz OPTNAME (OptValue.u32 tmp) with
          | none => simp [hf] at h
          | some fl =>
            cases fl with
            | next f =>
              simp only [hf, Option.some.injEq, Prod.mk.injEq, true_and] at h
              subst h
              exact FSET_OPTION_next_marks engine fuzz f OPTNAME _ hf
            | exit rc f =>
              simp only [hf, Option.some.injEq, Prod.mk.injEq] at h
              exact absurd h.1 (FSET_OPTION_exit_ne_zero engine fuzz f OPTNAME _ rc hf)
      · simp [hl, hc, hv] at h
  · simp [hl] at h

/-- A singleton string record whose option's tracker cell is marked is refused with
255 and nothing changes. -/
theorem FSINGLETONTLV_marked (engine : EngineStatus) (malloc_ok : Bool)
    (TLVNAME OPTNAME : Nat) (fuzz : FUZZ_DATA) (tlv : TLV) (v : Nat) (ht : tlv.type = TLVNAME)
    (hm : tracker_cell fuzz (OPTNAME % 1000) = some v) (hv : v ≠ 0) :
    fuzz_parse_tlv (FSINGLETONTLV engine malloc_ok TLVNAME OPTNAME) fuzz tlv
      = some (255, fuzz) := by
  simp [fuzz_parse_tlv, FSINGLETONTLV, ht, FCHECK_OPTION_UNSET_eq, hm, hv]

/-- A fixed-width integer record whose option's tracker cell is marked is refused with
255 and nothing changes. -/
theorem FU32TLV_marked (engine : EngineStatus)
    (TLVNAME OPTNAME : Nat) (fuzz : FUZZ_DATA) (tlv : TLV) (v : Nat) (ht : tlv.type = TLVNAME)
    (hm : tracker_cell fuzz (OPTNAME % 1000) = some v) (hv : v ≠ 0) :
    fuzz_parse_tlv (FU32TLV engine TLVNAME OPTNAME) fuzz tlv = some (255, fuzz) := by
  by_cases hl : tlv.length = 4 <;>
    simp [fuzz_parse_tlv, FU32TLV, ht, FCHECK_OPTION_UNSET_eq, hm, hv, hl]

/-! ## Set-once records -/

/-- C1: when a first record of a singleton option (string class or integer class) was
dispatched with result 0, the option's tracker cell is 1, and a second record of the
same type, whatever its value, is dispatched with result 255 and leaves the run data
as it was: no call reaches the engine and no tracker cell changes. -/
theorem C1_second_singleton_record_is_refused (engine : EngineStatus) (m1 m2 : Bool)
    (TLVNAME OPTNAME : Nat) (fuzz fuzz1 : FUZZ_DATA) (tlv1 tlv2 : TLV)
    (h1 : tlv1.type = TLVNAME) (h2 : tlv2.type = TLVNAME) :
    (fuzz_parse_tlv (FSINGLETONTLV engine m1 TLVNAME OPTNAME) fuzz tlv1 = some (0, fuzz1) →
      tracker_cell fuzz1 (OPTNAME % 1000) = some 1 ∧
      fuzz_parse_tlv (FSINGLETONTLV engine m2 TLVNAME OPTNAME) fuzz1 tlv2
        = some (255, fuzz1)) ∧
    (fuzz_parse_tlv (FU32TLV engine TLVNAME OPTNAME) fuzz tlv1 = some (0, fuzz1) →
      tracker_cell fuzz1 (OPTNAME % 1000) = some 1 ∧
      fuzz_parse_tlv (FU32TLV engine TLVNAME OPTNAME) fuzz1 tlv2 = some (255, fuzz1)) := by
  constructor
  · intro h
    have hm := FSINGLETONTLV_success_marks engine m1 TLVNAME OPTNAME fuzz fuzz1 tlv1 h1 h
    exact ⟨hm, FSINGLETONTLV_marked engine m2 TLVNAME OPTNAME fuzz1 tlv2 1 h2 hm (by decide)⟩
  · intro h
    have hm := FU32TLV_success_marks engine TLVNAME OPTNAME fuzz fuzz1 tlv1 h1 h
    exact ⟨hm, FU32TLV_marked engine TLVNAME OPTNAME fuzz1 tlv2 1 h2 hm (by decide)⟩

/-- C1 at HTTPAUTH with value 00 00 00 01 followed by HTTPAUTH with value 00 00 00 02. -/
theorem C1_second_singleton_record_is_refused_witness :
    fuzz_parse_tlv (FU32TLV engine_accept_all TLV_TYPE_HTTPAUTH CURLOPT_HTTPAUTH)
        zeroed_fuzz_data httpauth_record_1 = some (0, fuzz_after_httpauth) ∧
      tracker_cell fuzz_after_httpauth (CURLOPT_HTTPAUTH % 1000) = some 1 ∧
      fuzz_parse_tlv (FU32TLV engine_accept_all TLV_TYPE_HTTPAUTH CURLOPT_HTTPAUTH)
        fuzz_after_httpauth httpauth_record_2 = some (255, fuzz_after_httpauth) :=
  ⟨rfl, (C1_second_singleton_record_is_refused engine_accept_all true true TLV_TYPE_HTTPAUTH
    CURLOPT_HTTPAUTH zeroed_fuzz_data fuzz_after_httpauth httpauth_record_1
    httpauth_record_2 rfl rfl).2 rfl⟩

/-- C2: a fixed-width integer record whose length is not 4 is dispatched with result
255 whatever the tracker holds, and the run data stays as it was: no call reaches the
engine and no tracker cell changes. -/
theorem C2_integer_record_of_wrong_length_fails (engine : EngineStatus)
    (TLVNAME OPTNAME : Nat) (fuzz : FUZZ_DATA) (tlv : TLV)
    (ht : tlv.type = TLVNAME) (hl : tlv.length ≠ 4) :
    fuzz_parse_tlv (FU32TLV engine TLVNAME OPTNAME) fuzz tlv = some (255, fuzz) := by
  simp [fuzz_parse_tlv, FU32TLV, ht, hl]

/-- C2 at an HTTPAUTH record of length 5, with the option already set. -/
theorem C2_integer_record_of_wrong_length_fails_witness :
    httpauth_record_long.length ≠ 4 ∧
      fuzz_parse_tlv (FU32TLV engine_accept_all TLV_TYPE_HTTPAUTH CURLOPT_HTTPAUTH)
        fuzz_after_httpauth httpauth_record_long = some (255, fuzz_after_httpauth) :=
  ⟨by decide, C2_integer_record_of_wrong_length_fails engine_accept_all TLV_TYPE_HTTPAUTH
    CURLOPT_HTTPAUTH fuzz_after_httpauth httpauth_record_long rfl (by decide)⟩

/-! ## Applying a record -/

/-- C5: a singleton string record whose option is unset, whose string was materialised
as the buffer `s`, and whose value the engine accepts, is dispatched with result 0.
The buffer is the record's `length` value bytes followed by the terminator, the engine
received exactly one more call, with that option and that buffer, the option's tracker
cell is 1, every other tracker cell and every response slot is as before. -/
theorem C5_singleton_string_record_is_applied (engine : EngineStatus) (malloc_ok : Bool)
    (TLVNAME OPTNAME : Nat) (fuzz : FUZZ_DATA) (tlv : TLV) (s : List uint8_t)
    (ht : tlv.type = TLVNAME)
    (hu : tracker_cell fuzz (OPTNAME % 1000) = some 0)
    (hs : fuzz_tlv_to_string malloc_ok tlv = some (CharPtr.str s))
    (hc : engine fuzz.easy OPTNAME (OptValue.string (CharPtr.str s)) = 0) :
    s = tlv.value.take tlv.length ++ [0] ∧
    (tlv.value.take tlv.length).length = tlv.length ∧
    ∃ fuzz1 : FUZZ_DATA,
      fuzz_parse_tlv (FSINGLETONTLV engine malloc_ok TLVNAME OPTNAME) fuzz tlv
        = some (0, fuzz1) ∧
      fuzz1.easy = fuzz.easy ++ [SetoptCall.mk OPTNAME (OptValue.string (CharPtr.str s))] ∧
      tracker_cell fuzz1 (OPTNAME % 1000) = some 1 ∧
      (∀ i : Nat, i ≠ OPTNAME % 1000 → tracker_cell fuzz1 i = tracker_cell fuzz i) ∧
      fuzz1.responses = fuzz.responses := by
  have hi : OPTNAME % 1000 < FUZZ_CURLOPT_TRACKER_SPACE := by
    by_contra hn
    simp [tracker_cell, hn] at hu
  have hs2 : malloc_ok = true ∧ tlv.length ≤ tlv.value.length ∧
      s = tlv.value.take tlv.length ++ [0] := by
    unfold fuzz_tlv_to_string at hs
    by_cases hm : malloc_ok = true
    · by_cases hl : tlv.length ≤ tlv.value.length
      · simp only [hm, hl, if_true, Option.some.injEq, CharPtr.str.injEq] at hs
        exact ⟨hm, hl, hs.symm⟩
      · simp [hm, hl] at hs
    · simp [hm] at hs
  refine ⟨hs2.2.2, List.length_take_of_le hs2.2.1, ?_⟩
  refine ⟨{ fuzz with
      easy := fuzz.easy ++ [SetoptCall.mk OPTNAME (OptValue.string (CharPtr.str s))]
      options := Function.update fuzz.options ⟨OPTNAME % 1000, hi⟩ 1 }, ?_, rfl, ?_, ?_, rfl⟩
  · simp [fuzz_parse_tlv, FSINGLETONTLV, ht, FCHECK_OPTION_UNSET_eq, hu, hs,
      FSET_OPTION_accepted engine fuzz OPTNAME _ hc, hi]
  · simp [tracker_cell, hi]
  · intro i hne
    unfold tracker_cell
    by_cases hlt : i < FUZZ_CURLOPT_TRACKER_SPACE
    · have hne2 : (⟨i, hlt⟩ : Fin FUZZ_CURLOPT_TRACKER_SPACE) ≠ ⟨OPTNAME % 1000, hi⟩ := by
        intro heq
        exact hne (Fin.mk.inj_iff.mp heq)
      simp [hlt, Function.update_noteq hne2]
    · simp [hlt]

/-- C5 at the record `[URL, "x"]` on zeroed run data with an engine that accepts. -/
theorem C5_singleton_string_record_is_applied_witness :
    ([120] : List uint8_t) ++ [0] = url_record_x.value.take url_record_x.length ++ [0] ∧
    (url_record_x.value.take url_record_x.length).length = url_record_x.length ∧
    ∃ fuzz1 : FUZZ_DATA,
      fuzz_parse_tlv (FSINGLETONTLV engine_accept_all true TLV_TYPE_URL CURLOPT_URL)
        zeroed_fuzz_data url_record_x = some (0, fuzz1) ∧
      fuzz1.easy = zeroed_fuzz_data.easy ++
        [SetoptCall.mk CURLOPT_URL (OptValue.string (CharPtr.str ([120] ++ [0])))] ∧
      tracker_cell fuzz1 (CURLOPT_URL % 1000) = some 1 ∧
      (∀ i : Nat, i ≠ CURLOPT_URL % 1000 →
        tracker_cell fuzz1 i = tracker_cell zeroed_fuzz_data i) ∧
      fuzz1.responses = zeroed_fuzz_data.responses :=
  C5_singleton_string_record_is_applied engine_accept_all true TLV_TYPE_URL CURLOPT_URL
    zeroed_fuzz_data url_record_x ([120] ++ [0]) rfl rfl rfl rfl

/-- C6: a fixed-width integer record of length 4 with value bytes `b0 b1 b2 b3`, whose
option is unset and whose value the engine accepts, is dispatched with result 0.  The
engine received exactly one more call, with that option and the big-endian value
`b0 * 2^24 + b1 * 2^16 + b2 * 2^8 + b3`, which is below `2^32`, and the option's
tracker cell is 1. -/
theorem C6_integer_record_is_applied (engine : EngineStatus)
    (TLVNAME OPTNAME : Nat) (fuzz : FUZZ_DATA) (tlv : TLV) (b0 b1 b2 b3 : uint8_t)
    (ht : tlv.type = TLVNAME) (hl : tlv.length = 4) (hv : tlv.value = [b0, b1, b2, b3])
    (hu : tracker_cell fuzz (OPTNAME % 1000) = some 0)
    (hc : engine fuzz.easy OPTNAME
      (OptValue.u32 (b0.val * 2 ^ 24 + b1.val * 2 ^ 16 + b2.val * 2 ^ 8 + b3.val)) = 0) :
    to_u32 tlv.value = some (b0.val * 2 ^ 24 + b1.val * 2 ^ 16 + b2.val * 2 ^ 8 + b3.val) ∧
    b0.val * 2 ^ 24 + b1.val * 2 ^ 16 + b2.val * 2 ^ 8 + b3.val < 2 ^ 32 ∧
    ∃ fuzz1 : FUZZ_DATA,
      fuzz_parse_tlv (FU32TLV engine TLVNAME OPTNAME) fuzz tlv = some (0, fuzz1) ∧
      fuzz1.easy = fuzz.easy ++ [SetoptCall.mk OPTNAME
        (OptValue.u32 (b0.val * 2 ^ 24 + b1.val * 2 ^ 16 + b2.val * 2 ^ 8 + b3.val))] ∧
      tracker_cell fuzz1 (OPTNAME % 1000) = some 1 := by
  have hi : OPTNAME % 1000 < FUZZ_CURLOPT_TRACKER_SPACE := by
    by_contra hn
    simp [tracker_cell, hn] at hu
  have hlt : b0.val * 2 ^ 24 + b1.val * 2 ^ 16 + b2.val * 2 ^ 8 + b3.val < 2 ^ 32 := by
    have := b0.isLt; have := b1.isLt; have := b2.isLt; have := b3.isLt
    omega
  have hd : to_u32 tlv.value
      = some (b0.val * 2 ^ 24 + b1.val * 2 ^ 16 + b2.val * 2 ^ 8 + b3.val) := by
    rw [hv]
    simp only [to_u32, Option.some.injEq]
    exact Nat.mod_eq_of_lt hlt
  refine ⟨hd, hlt, ?_⟩
  refine ⟨{ fuzz with
      easy := fuzz.easy ++ [SetoptCall.mk OPTNAME
        (OptValue.u32 (b0.val * 2 ^ 24 + b1.val * 2 ^ 16 + b2.val * 2 ^ 8 + b3.val))]
      options := Function.update fuzz.options ⟨OPTNAME % 1000, hi⟩ 1 }, ?_, rfl, ?_⟩
  · have hf := FSET_OPTION_accepted engine fuzz OPTNAME _ hc
    simp only [hi, dite_true] at hf
    simp only [fuzz_parse_tlv, FU32TLV, ht, hl, if_true, ne_eq, not_true_eq_false, if_false,
      FCHECK_OPTION_UNSET_eq, hu, hd, hf]
  · simp [tracker_cell, hi]

/-- C6 at the record `[HTTPAUTH, 00 00 00 01]`: the value applied is 1. -/
theorem C6_integer_record_is_applied_witness :
    to_u32 httpauth_record_1.value = some 1 ∧
    (1 : Nat) < 2 ^ 32 ∧
    ∃ fuzz1 : FUZZ_DATA,
      fuzz_parse_tlv (FU32TLV engine_accept_all TLV_TYPE_HTTPAUTH CURLOPT_HTTPAUTH)
        zeroed_fuzz_data httpauth_record_1 = some (0, fuzz1) ∧
      fuzz1.easy = zeroed_fuzz_data.easy ++
        [SetoptCall.mk CURLOPT_HTTPAUTH (OptValue.u32 1)] ∧
      tracker_cell fuzz1 (CURLOPT_HTTPAUTH % 1000) = some 1 :=
  C6_integer_record_is_applied engine_accept_all TLV_TYPE_HTTPAUTH CURLOPT_HTTPAUTH
    zeroed_fuzz_data httpauth_record_1 0 0 0 1 rfl rfl rfl rfl rfl

/-! ## Response slots -/

/-- A response record for a slot inside the array: the result of the dispatch. -/
theorem FRESPONSETLV_in_range (TLVNAME INDEX : Nat) (fuzz : FUZZ_DATA) (tlv : TLV)
    (ht : tlv.type = TLVNAME) (hi : INDEX < TLV_MAX_NUM_RESPONSES) :
    fuzz_parse_tlv (FRESPONSETLV TLVNAME INDEX) fuzz tlv =
      some (0, { fuzz with
        responses := Function.update fuzz.responses ⟨INDEX, hi⟩
          (FUZZ_RESPONSE.mk tlv.value tlv.length) }) := by
  simp [fuzz_parse_tlv, FRESPONSETLV, ht, hi]

/-- C7: for a slot index `INDEX < 11` a response record is always dispatched with
result 0; the run data afterwards differs from the one before only in
`responses[INDEX]`, which holds the record's `{value, length}` view: every other
response slot, the whole tracker and the engine trace are as before.  No set-once
check is made: a second record for the same slot is dispatched with result 0 too, and
the slot then holds the second record's view. -/
theorem C7_response_record_is_stored (TLVNAME INDEX : Nat) (fuzz : FUZZ_DATA)
    (tlv tlv2 : TLV) (ht : tlv.type = TLVNAME) (ht2 : tlv2.type = TLVNAME)
    (hi : INDEX < TLV_MAX_NUM_RESPONSES) :
    ∃ fuzz1 fuzz2 : FUZZ_DATA,
      fuzz_parse_tlv (FRESPONSETLV TLVNAME INDEX) fuzz tlv = some (0, fuzz1) ∧
      fuzz1 = { fuzz with
        responses := Function.update fuzz.responses ⟨INDEX, hi⟩
          (FUZZ_RESPONSE.mk tlv.value tlv.length) } ∧
      response_slot fuzz1 INDEX = some (FUZZ_RESPONSE.mk tlv.value tlv.length) ∧
      (∀ j : Nat, j ≠ INDEX → response_slot fuzz1 j = response_slot fuzz j) ∧
      fuzz1.options = fuzz.options ∧
      fuzz1.easy = fuzz.easy ∧
      fuzz_parse_tlv (FRESPONSETLV TLVNAME INDEX) fuzz1 tlv2 = some (0, fuzz2) ∧
      response_slot fuzz2 INDEX = some (FUZZ_RESPONSE.mk tlv2.value tlv2.length) ∧
      (∀ j : Nat, j ≠ INDEX → response_slot fuzz2 j = response_slot fuzz j) ∧
      fuzz2.options = fuzz.options := by
  have hfar : ∀ (g : FUZZ_DATA) (r : FUZZ_RESPONSE) (j : Nat), j ≠ INDEX →
      response_slot { g with responses := Function.update g.responses ⟨INDEX, hi⟩ r } j
        = response_slot g j := by
    intro g r j hne
    unfold response_slot
    by_cases hlt : j < TLV_MAX_NUM_RESPONSES
    · have hne2 : (⟨j, hlt⟩ : Fin TLV_MAX_NUM_RESPONSES) ≠ ⟨INDEX, hi⟩ := by
        intro heq
        exact hne (Fin.mk.inj_iff.mp heq)
      simp [hlt, Function.update_noteq hne2]
    · simp [hlt]
  refine ⟨_, _, FRESPONSETLV_in_range TLVNAME INDEX fuzz tlv ht hi, rfl, ?_, ?_, rfl, rfl,
    FRESPONSETLV_in_range TLVNAME INDEX _ tlv2 ht2 hi, ?_, ?_, rfl⟩
  · simp [response_slot, hi]
  · exact hfar fuzz _
  · simp [response_slot, hi]
  · intro j hne
    rw [hfar _ _ j hne]
    exact hfar fuzz _ j hne

/-- C7 at two RESPONSE0 records, `"A"` then `"BC"`, for slot 0. -/
theorem C7_response_record_is_stored_witness :
    ∃ fuzz1 fuzz2 : FUZZ_DATA,
      fuzz_parse_tlv (FRESPONSETLV TLV_TYPE_RESPONSE0 0) zeroed_fuzz_data response0_record_A
        = some (0, fuzz1) ∧
      fuzz1 = { zeroed_fuzz_data with
        responses := Function.update zeroed_fuzz_data.responses ⟨0, by decide⟩
          (FUZZ_RESPONSE.mk response0_record_A.value response0_record_A.length) } ∧
      response_slot fuzz1 0
        = some (FUZZ_RESPONSE.mk response0_record_A.value response0_record_A.length) ∧
      (∀ j : Nat, j ≠ 0 → response_slot fuzz1 j = response_slot zeroed_fuzz_data j) ∧
      fuzz1.options = zeroed_fuzz_data.options ∧
      fuzz1.easy = zeroed_fuzz_data.easy ∧
      fuzz_parse_tlv (FRESPONSETLV TLV_TYPE_RESPONSE0 0) fuzz1 response0_record_BC
        = some (0, fuzz2) ∧
      response_slot fuzz2 0
        = some (FUZZ_RESPONSE.mk response0_record_BC.value response0_record_BC.length) ∧
      (∀ j : Nat, j ≠ 0 → response_slot fuzz2 j = response_slot zeroed_fuzz_data j) ∧
      fuzz2.options = zeroed_fuzz_data.options :=
  C7_response_record_is_stored TLV_TYPE_RESPONSE0 0 zeroed_fuzz_data response0_record_A
    response0_record_BC rfl rfl (by decide)

/-- C3, as the claim states it, fails: with slot index 11 the statement has no check
that refuses the record, so no dispatch result with a terminal code and untouched run
data exists; the store `responses[11]` lies outside the array. -/
theorem C3_out_of_range_index_is_not_refused :
    FRESPONSETLV TLV_TYPE_RESPONSE0 11 zeroed_fuzz_data response0_record_A = none ∧
    ¬ ∃ rc : Int, rc ≠ 0 ∧
      fuzz_parse_tlv (FRESPONSETLV TLV_TYPE_RESPONSE0 11) zeroed_fuzz_data response0_record_A
        = some (rc, zeroed_fuzz_data) := by
  have h : FRESPONSETLV TLV_TYPE_RESPONSE0 11 zeroed_fuzz_data response0_record_A = none := rfl
  refine ⟨h, ?_⟩
  rintro ⟨rc, _, hrc⟩
  simp [fuzz_parse_tlv, h] at hrc

/-- C3 as amended: the response-slot statement has no range check and no error path.
It never jumps to `EXIT_LABEL`, whatever the index; for an index below 11 the record is
stored in that slot with result 0, and for an index of 11 or more the record is not
refused: the store it performs lies outside the response array. -/
theorem C3_response_record_has_no_error_path (TLVNAME INDEX : Nat) (fuzz : FUZZ_DATA)
    (tlv : TLV) (ht : tlv.type = TLVNAME) :
    (∀ (rc : Int) (f : FUZZ_DATA), FRESPONSETLV TLVNAME INDEX fuzz tlv ≠ some (Flow.exit rc f)) ∧
    (∀ hi : INDEX < TLV_MAX_NUM_RESPONSES,
      fuzz_parse_tlv (FRESPONSETLV TLVNAME INDEX) fuzz tlv =
        some (0, { fuzz with
          responses := Function.update fuzz.responses ⟨INDEX, hi⟩
            (FUZZ_RESPONSE.mk tlv.value tlv.length) })) ∧
    (TLV_MAX_NUM_RESPONSES ≤ INDEX →
      fuzz_parse_tlv (FRESPONSETLV TLVNAME INDEX) fuzz tlv = none) := by
  refine ⟨?_, ?_, ?_⟩
  · intro rc f
    by_cases hi : INDEX < TLV_MAX_NUM_RESPONSES <;> simp [FRESPONSETLV, ht, hi]
  · intro hi
    exact FRESPONSETLV_in_range TLVNAME INDEX fuzz tlv ht hi
  · intro hge
    have hi : ¬ INDEX < TLV_MAX_NUM_RESPONSES := Nat.not_lt.mpr hge
    simp [fuzz_parse_tlv, FRESPONSETLV, ht, hi]

/-- C3 as amended, at a RESPONSE10 record for slot 10, the last one. -/
theorem C3_response_record_has_no_error_path_witness :
    (∀ (rc : Int) (f : FUZZ_DATA),
      FRESPONSETLV TLV_TYPE_RESPONSE10 10 zeroed_fuzz_data (TLV.mk TLV_TYPE_RESPONSE10 1 [65])
        ≠ some (Flow.exit rc f)) ∧
    fuzz_parse_tlv (FRESPONSETLV TLV_TYPE_RESPONSE10 10) zeroed_fuzz_data
        (TLV.mk TLV_TYPE_RESPONSE10 1 [65]) =
      some (0, { zeroed_fuzz_data with
        responses := Function.update zeroed_fuzz_data.responses ⟨10, by decide⟩
          (FUZZ_RESPONSE.mk [65] 1) }) ∧
    fuzz_parse_tlv (FRESPONSETLV TLV_TYPE_RESPONSE10 11) zeroed_fuzz_data
        (TLV.mk TLV_TYPE_RESPONSE10 1 [65]) = none :=
  have h := C3_response_record_has_no_error_path TLV_TYPE_RESPONSE10 10 zeroed_fuzz_data
    (TLV.mk TLV_TYPE_RESPONSE10 1 [65]) rfl
  ⟨h.1, h.2.1 (by decide),
    (C3_response_record_has_no_error_path TLV_TYPE_RESPONSE10 11 zeroed_fuzz_data
      (TLV.mk TLV_TYPE_RESPONSE10 1 [65]) rfl).2.2 (by decide)⟩

/-! ## The engine's status and the missing string -/

/-- C10: when the engine's set-option returns a non-zero status `c`, `FSET_OPTION`
jumps to `EXIT_LABEL` with `rc = c` and the tracker is as before; so do the singleton
string and integer record statements, whose dispatch then returns `c`.  A tracker that
differs after `FSET_OPTION` means the engine returned 0. -/
theorem C10_engine_status_ends_the_dispatch (engine : EngineStatus) (malloc_ok : Bool)
    (TLVNAME OPTNAME : Nat) (fuzz : FUZZ_DATA) (tlv : TLV) (OPTVALUE : OptValue) :
    (engine fuzz.easy OPTNAME OPTVALUE ≠ 0 →
      ∃ f : FUZZ_DATA,
        FSET_OPTION engine fuzz OPTNAME OPTVALUE
          = some (Flow.exit (engine fuzz.easy OPTNAME OPTVALUE) f) ∧
        f.options = fuzz.options ∧
        f.easy = fuzz.easy ++ [SetoptCall.mk OPTNAME OPTVALUE]) ∧
    (∀ fl : Flow, FSET_OPTION engine fuzz OPTNAME OPTVALUE = some fl →
      fl.data.options ≠ fuzz.options → engine fuzz.easy OPTNAME OPTVALUE = 0) ∧
    (∀ tmp : CharPtr, tlv.type = TLVNAME →
      tracker_cell fuzz (OPTNAME % 1000) = some 0 →
      fuzz_tlv_to_string malloc_ok tlv = some tmp →
      engine fuzz.easy OPTNAME (OptValue.string tmp) ≠ 0 →
      ∃ f : FUZZ_DATA,
        fuzz_parse_tlv (FSINGLETONTLV engine malloc_ok TLVNAME OPTNAME) fuzz tlv
          = some (engine fuzz.easy OPTNAME (OptValue.string tmp), f) ∧
        f.options = fuzz.options) ∧
    (∀ tmp_u32 : Nat, tlv.type = TLVNAME → tlv.length = 4 →
      tracker_cell fuzz (OPTNAME % 1000) = some 0 →
      to_u32 tlv.value = some tmp_u32 →
      engine fuzz.easy OPTNAME (OptValue.u32 tmp_u32) ≠ 0 →
      ∃ f : FUZZ_DATA,
        fuzz_parse_tlv (FU32TLV engine TLVNAME OPTNAME) fuzz tlv
          = some (engine fuzz.easy OPTNAME (OptValue.u32 tmp_u32), f) ∧
        f.options = fuzz.options) := by
  refine ⟨?_, ?_, ?_, ?_⟩
  · intro hc
    exact ⟨{ fuzz with easy := fuzz.easy ++ [SetoptCall.mk OPTNAME OPTVALUE] },
      FSET_OPTION_rejected engine fuzz OPTNAME OPTVALUE hc, rfl, rfl⟩
  · intro fl hfl hne
    by_contra hc
    rw [FSET_OPTION_rejected engine fuzz OPTNAME OPTVALUE hc] at hfl
    simp only [Option.some.injEq] at hfl
    subst hfl
    exact hne rfl
  · intro tmp ht hu hs hc
    refine ⟨{ fuzz with
      easy := fuzz.easy ++ [SetoptCall.mk OPTNAME (OptValue.string tmp)] }, ?_, rfl⟩
    have hf := FSET_OPTION_rejected engine fuzz OPTNAME (OptValue.string tmp) hc
    simp only [fuzz_parse_tlv, FSINGLETONTLV, ht, if_true, FCHECK_OPTION_UNSET_eq, hu, hs, hf]
  · intro tmp_u32 ht hl hu hs hc
    refine ⟨{ fuzz with
      easy := fuzz.easy ++ [SetoptCall.mk OPTNAME (OptValue.u32 tmp_u32)] }, ?_, rfl⟩
    have hf := FSET_OPTION_rejected engine fuzz OPTNAME (OptValue.u32 tmp_u32) hc
    simp only [fuzz_parse_tlv, FU32TLV, ht, hl, if_true, ne_eq, not_true_eq_false, if_false,
      FCHECK_OPTION_UNSET_eq, hu, hs, hf]

/-- C10 at an engine that answers every call with status 43, for `CURLOPT_URL` with the
record `[URL, "x"]` and for `CURLOPT_HTTPAUTH` with the record `[HTTPAUTH, 00 00 00 01]`. -/
theorem C10_engine_status_ends_the_dispatch_witness :
    (∃ f : FUZZ_DATA,
      FSET_OPTION (engine_reject_all 43) zeroed_fuzz_data CURLOPT_HTTPAUTH (OptValue.u32 1)
        = some (Flow.exit 43 f) ∧
      f.options = zeroed_fuzz_data.options ∧
      f.easy = zeroed_fuzz_data.easy ++ [SetoptCall.mk CURLOPT_HTTPAUTH (OptValue.u32 1)]) ∧
    (∃ f : FUZZ_DATA,
      fuzz_parse_tlv (FSINGLETONTLV (engine_reject_all 43) true TLV_TYPE_URL CURLOPT_URL)
        zeroed_fuzz_data url_record_x = some (43, f) ∧
      f.options = zeroed_fuzz_data.options) ∧
    (∃ f : FUZZ_DATA,
      fuzz_parse_tlv (FU32TLV (engine_reject_all 43) TLV_TYPE_HTTPAUTH CURLOPT_HTTPAUTH)
        zeroed_fuzz_data httpauth_record_1 = some (43, f) ∧
      f.options = zeroed_fuzz_data.options) ∧
    engine_accept_all zeroed_fuzz_data.easy CURLOPT_HTTPAUTH (OptValue.u32 1) = 0 :=
  ⟨(C10_engine_status_ends_the_dispatch (engine_reject_all 43) true TLV_TYPE_HTTPAUTH
      CURLOPT_HTTPAUTH zeroed_fuzz_data httpauth_record_1 (OptValue.u32 1)).1 (by decide),
   (C10_engine_status_ends_the_dispatch (engine_reject_all 43) true TLV_TYPE_URL
      CURLOPT_URL zeroed_fuzz_data url_record_x (OptValue.u32 1)).2.2.1
      (CharPtr.str [120, 0]) rfl rfl rfl (by decide),
   (C10_engine_status_ends_the_dispatch (engine_reject_all 43) true TLV_TYPE_HTTPAUTH
      CURLOPT_HTTPAUTH zeroed_fuzz_data httpauth_record_1 (OptValue.u32 1)).2.2.2
      1 rfl rfl rfl rfl (by decide),
   (C10_engine_status_ends_the_dispatch engine_accept_all true TLV_TYPE_HTTPAUTH
      CURLOPT_HTTPAUTH zeroed_fuzz_data httpauth_record_1 (OptValue.u32 1)).2.1
      (Flow.next fuzz_after_httpauth) rfl
      (fun h => absurd (congrFun h ⟨107, by decide⟩) (by decide))⟩

/-- C4, as the claim states it, fails: on zeroed run data with an engine that accepts,
the record `[URL, "x"]` whose string could not be allocated is dispatched with result
0, the engine is called with the null string, and tracker cell 2 is marked. -/
theorem C4_missing_string_is_passed_to_the_engine :
    fuzz_tlv_to_string false url_record_x = some CharPtr.NULL ∧
    tracker_cell zeroed_fuzz_data (CURLOPT_URL % 1000) = some 0 ∧
    fuzz_parse_tlv (FSINGLETONTLV engine_accept_all false TLV_TYPE_URL CURLOPT_URL)
      zeroed_fuzz_data url_record_x = some (0, fuzz_after_null_url) ∧
    fuzz_after_null_url.easy = [SetoptCall.mk CURLOPT_URL (OptValue.string CharPtr.NULL)] ∧
    tracker_cell fuzz_after_null_url (CURLOPT_URL % 1000) = some 1 :=
  ⟨rfl, rfl, rfl, rfl, rfl⟩

/-- C4 as amended: the singleton string statement does not test the materialised
string.  When the option is unset and the allocation fails, the null string is handed
to the engine's set-option in exactly one call, and the dispatch returns the engine's
status `c` for that call: for `c ≠ 0` the tracker is as before, for `c = 0` the
option's tracker cell is 1. -/
theorem C4_missing_string_follows_the_engine_status (engine : EngineStatus)
    (TLVNAME OPTNAME : Nat) (fuzz : FUZZ_DATA) (tlv : TLV) (ht : tlv.type = TLVNAME)
    (hu : tracker_cell fuzz (OPTNAME % 1000) = some 0) :
    fuzz_tlv_to_string false tlv = some CharPtr.NULL ∧
    ∃ f : FUZZ_DATA,
      fuzz_parse_tlv (FSINGLETONTLV engine false TLVNAME OPTNAME) fuzz tlv
        = some (engine fuzz.easy OPTNAME (OptValue.string CharPtr.NULL), f) ∧
      f.easy = fuzz.easy ++ [SetoptCall.mk OPTNAME (OptValue.string CharPtr.NULL)] ∧
      (engine fuzz.easy OPTNAME (OptValue.string CharPtr.NULL) ≠ 0 →
        f.options = fuzz.options) ∧
      (engine fuzz.easy OPTNAME (OptValue.string CharPtr.NULL) = 0 →
        tracker_cell f (OPTNAME % 1000) = some 1) := by
  have hi : OPTNAME % 1000 < FUZZ_CURLOPT_TRACKER_SPACE := by
    by_contra hn
    simp [tracker_cell, hn] at hu
  have hs : fuzz_tlv_to_string false tlv = some CharPtr.NULL := rfl
  refine ⟨hs, ?_⟩
  by_cases hc : engine fuzz.easy OPTNAME (OptValue.string CharPtr.NULL) = 0
  · have hf := FSET_OPTION_accepted engine fuzz OPTNAME (OptValue.string CharPtr.NULL) hc
    simp only [hi, dite_true] at hf
    refine ⟨{ fuzz with
      easy := fuzz.easy ++ [SetoptCall.mk OPTNAME (OptValue.string CharPtr.NULL)]
      options := Function.update fuzz.options ⟨OPTNAME % 1000, hi⟩ 1 },
      ?_, rfl, fun hne => absurd hc hne, fun _ => ?_⟩
    · simp only [fuzz_parse_tlv, FSINGLETONTLV, ht, if_true, FCHECK_OPTION_UNSET_eq, hu, hs,
        hf, hc]
    · simp [tracker_cell, hi]
  · have hf := FSET_OPTION_rejected engine fuzz OPTNAME (OptValue.string CharPtr.NULL) hc
    refine ⟨{ fuzz with
      easy := fuzz.easy ++ [SetoptCall.mk OPTNAME (OptValue.string CharPtr.NULL)] },
      ?_, rfl, fun _ => rfl, fun h0 => absurd h0 hc⟩
    simp only [fuzz_parse_tlv, FSINGLETONTLV, ht, if_true, FCHECK_OPTION_UNSET_eq, hu, hs, hf]

/-- C4 as amended, at the record `[URL, "x"]` with an engine that answers 43. -/
theorem C4_missing_string_follows_the_engine_status_witness :
    fuzz_tlv_to_string false url_record_x = some CharPtr.NULL ∧
    ∃ f : FUZZ_DATA,
      fuzz_parse_tlv (FSINGLETONTLV (engine_reject_all 43) false TLV_TYPE_URL CURLOPT_URL)
          zeroed_fuzz_data url_record_x
        = some (engine_reject_all 43 zeroed_fuzz_data.easy CURLOPT_URL
            (OptValue.string CharPtr.NULL), f) ∧
      f.easy = zeroed_fuzz_data.easy ++
        [SetoptCall.mk CURLOPT_URL (OptValue.string CharPtr.NULL)] ∧
      (engine_reject_all 43 zeroed_fuzz_data.easy CURLOPT_URL
          (OptValue.string CharPtr.NULL) ≠ 0 → f.options = zeroed_fuzz_data.options) ∧
      (engine_reject_all 43 zeroed_fuzz_data.easy CURLOPT_URL
          (OptValue.string CharPtr.NULL) = 0 →
        tracker_cell f (CURLOPT_URL % 1000) = some 1) :=
  C4_missing_string_follows_the_engine_status (engine_reject_all 43) TLV_TYPE_URL
    CURLOPT_URL zeroed_fuzz_data url_record_x rfl rfl

/-! ## The tracker index -/

/-- C8, as the claim states it, fails: for the option identifier 10300 the index used
is `10300 % 1000 = 300`, which is not the identifier modulo the array size
(`10300 % 300 = 100`) and is not below `FUZZ_CURLOPT_TRACKER_SPACE`; the check and the
mark both access the tracker outside the array. -/
theorem C8_index_can_leave_the_tracker :
    10300 % 1000 = 300 ∧
    10300 % FUZZ_CURLOPT_TRACKER_SPACE = 100 ∧
    ¬ 10300 % 1000 < FUZZ_CURLOPT_TRACKER_SPACE ∧
    FCHECK_OPTION_UNSET zeroed_fuzz_data 10300 = none ∧
    FSET_OPTION engine_accept_all zeroed_fuzz_data 10300 (OptValue.u32 0) = none :=
  ⟨by decide, by decide, by decide, rfl, rfl⟩

/-- C8 as amended: the tracker cell used for an option identifier is the identifier
modulo 1000.  The check reads that cell and the mark writes that cell, and both stay
inside the tracker array exactly when the identifier modulo 1000 is below
`FUZZ_CURLOPT_TRACKER_SPACE`. -/
theorem C8_tracker_index_is_identifier_mod_1000 (engine : EngineStatus) (fuzz : FUZZ_DATA)
    (OPTNAME : Nat) (OPTVALUE : OptValue) :
    ((FCHECK_OPTION_UNSET fuzz OPTNAME).isSome
      ↔ OPTNAME % 1000 < FUZZ_CURLOPT_TRACKER_SPACE) ∧
    (engine fuzz.easy OPTNAME OPTVALUE = 0 →
      ((FSET_OPTION engine fuzz OPTNAME OPTVALUE).isSome
        ↔ OPTNAME % 1000 < FUZZ_CURLOPT_TRACKER_SPACE)) ∧
    (∀ h : OPTNAME % 1000 < FUZZ_CURLOPT_TRACKER_SPACE,
      FCHECK_OPTION_UNSET fuzz OPTNAME =
        some (if fuzz.options ⟨OPTNAME % 1000, h⟩ = 0 then Flow.next fuzz
          else Flow.exit 255 fuzz) ∧
      (engine fuzz.easy OPTNAME OPTVALUE = 0 →
        FSET_OPTION engine fuzz OPTNAME OPTVALUE =
          some (Flow.next { fuzz with
            easy := fuzz.easy ++ [SetoptCall.mk OPTNAME OPTVALUE]
            options := Function.update fuzz.options ⟨OPTNAME % 1000, h⟩ 1 }))) := by
  refine ⟨?_, ?_, ?_⟩
  · unfold FCHECK_OPTION_UNSET
    by_cases h : OPTNAME % 1000 < FUZZ_CURLOPT_TRACKER_SPACE <;> simp [h]
  · intro hc
    rw [FSET_OPTION_accepted engine fuzz OPTNAME OPTVALUE hc]
    by_cases h : OPTNAME % 1000 < FUZZ_CURLOPT_TRACKER_SPACE <;> simp [h]
  · intro h
    constructor
    · unfold FCHECK_OPTION_UNSET FCHECK
      by_cases hv : fuzz.options ⟨OPTNAME % 1000, h⟩ = 0 <;> simp [h, hv]
    · intro hc
      rw [FSET_OPTION_accepted engine fuzz OPTNAME OPTVALUE hc]
      simp [h]

/-- C8 as amended, at `CURLOPT_URL = 10002`, whose cell is number 2. -/
theorem C8_tracker_index_is_identifier_mod_1000_witness :
    FCHECK_OPTION_UNSET zeroed_fuzz_data CURLOPT_URL =
      some (if zeroed_fuzz_data.options ⟨2, by decide⟩ = 0 then Flow.next zeroed_fuzz_data
        else Flow.exit 255 zeroed_fuzz_data) ∧
    FSET_OPTION engine_accept_all zeroed_fuzz_data CURLOPT_URL (OptValue.string CharPtr.NULL) =
      some (Flow.next { zeroed_fuzz_data with
        easy := zeroed_fuzz_data.easy ++
          [SetoptCall.mk CURLOPT_URL (OptValue.string CharPtr.NULL)]
        options := Function.update zeroed_fuzz_data.options ⟨2, by decide⟩ 1 }) ∧
    ((FSET_OPTION engine_accept_all zeroed_fuzz_data CURLOPT_URL
        (OptValue.string CharPtr.NULL)).isSome
      ↔ CURLOPT_URL % 1000 < FUZZ_CURLOPT_TRACKER_SPACE) :=
  have h := C8_tracker_index_is_identifier_mod_1000 engine_accept_all zeroed_fuzz_data
    CURLOPT_URL (OptValue.string CharPtr.NULL)
  ⟨(h.2.2 (by decide)).1, (h.2.2 (by decide)).2 rfl, h.2.1 rfl⟩

/-! ## The tracker as a set -/

/-- A fall-through of `FSET_OPTION` changes the tracker in the option's cell only. -/
theorem FSET_OPTION_next_cells (engine : EngineStatus) (fuzz g : FUZZ_DATA) (OPTNAME : Nat)
    (OPTVALUE : OptValue) (h : FSET_OPTION engine fuzz OPTNAME OPTVALUE = some (Flow.next g))
    (i : Nat) (hne : i ≠ OPTNAME % 1000) : tracker_cell g i = tracker_cell fuzz i := by
  by_cases hc : engine fuzz.easy OPTNAME OPTVALUE = 0
  · rw [FSET_OPTION_accepted engine fuzz OPTNAME OPTVALUE hc] at h
    by_cases hi : OPTNAME % 1000 < FUZZ_CURLOPT_TRACKER_SPACE
    · simp only [hi, dite_true, Option.some.injEq, Flow.next.injEq] at h
      subst h
      unfold tracker_cell
      by_cases hlt : i < FUZZ_CURLOPT_TRACKER_SPACE
      · have hne2 : (⟨i, hlt⟩ : Fin FUZZ_CURLOPT_TRACKER_SPACE) ≠ ⟨OPTNAME % 1000, hi⟩ := by
          intro heq
          exact hne (Fin.mk.inj_iff.mp heq)
        simp [hlt, Function.update_noteq hne2]
      · simp [hlt]
    · simp [hi] at h
  · rw [FSET_OPTION_rejected engine fuzz OPTNAME OPTVALUE hc] at h
    simp at h

/-- After a sequence of `FSET_OPTION` statements that all fell through, a tracker cell
is 1 when one of the options has that residue modulo 1000, and is as before when
none has. -/
theorem apply_options_cells (engine : EngineStatus) (calls : List SetoptCall) :
    ∀ fuzz f : FUZZ_DATA, apply_options engine fuzz calls = some f → ∀ i : Nat,
      ((∃ c ∈ calls, c.OPTNAME % 1000 = i) → tracker_cell f i = some 1) ∧
      ((¬ ∃ c ∈ calls, c.OPTNAME % 1000 = i) → tracker_cell f i = tracker_cell fuzz i) := by
  induction calls with
  | nil =>
    intro fuzz f h i
    simp only [apply_options, Option.some.injEq] at h
    subst h
    simp
  | cons c cs ih =>
    intro fuzz f h i
    simp only [apply_options] at h
    cases hf : FSET_OPTION engine fuzz c.OPTNAME c.OPTVALUE with
    | none => simp [hf] at h
    | some fl =>
      cases fl with
      | exit rc g => simp [hf] at h
      | next g =>
        simp only [hf] at h
        have hrec := ih g f h i
        have hmark := FSET_OPTION_next_marks engine fuzz g c.OPTNAME c.OPTVALUE hf
        constructor
        · rintro ⟨d, hd, hdi⟩
          by_cases hcs : ∃ e ∈ cs, e.OPTNAME % 1000 = i
          · exact hrec.1 hcs
          · rw [hrec.2 hcs]
            rcases List.mem_cons.mp hd with hdc | hdcs
            · rw [← hdi, hdc]; exact hmark
            · exact absurd ⟨d, hdcs, hdi⟩ hcs
        · intro hno
          have hcs : ¬ ∃ e ∈ cs, e.OPTNAME % 1000 = i := by
            rintro ⟨e, he, hei⟩
            exact hno ⟨e, List.mem_cons_of_mem c he, hei⟩
          have hci : i ≠ c.OPTNAME % 1000 := by
            intro heq
            exact hno ⟨c, List.mem_cons_self c cs, heq.symm⟩
          rw [hrec.2 hcs]
          exact FSET_OPTION_next_cells engine fuzz g c.OPTNAME c.OPTVALUE hf i hci

/-- C9, as the claim states it, fails: on zeroed run data, after `CURLOPT_HTTPAUTH`
(identifier 107) alone was set, the unset check for the different identifier 10107
fails with 255, because both identifiers use tracker cell 107. -/
theorem C9_another_identifier_can_fail_the_check :
    apply_options engine_accept_all zeroed_fuzz_data
      [SetoptCall.mk CURLOPT_HTTPAUTH (OptValue.u32 1)] = some fuzz_after_httpauth ∧
    (10107 : Nat) ∉ [CURLOPT_HTTPAUTH] ∧
    FCHECK_OPTION_UNSET fuzz_after_httpauth 10107 = some (Flow.exit 255 fuzz_after_httpauth) :=
  ⟨rfl, by decide, rfl⟩

/-- C9 as amended: starting from an all-zero tracker and after any sequence of
`FSET_OPTION` statements that fell through, the unset check for an identifier `B`
fails (with 255) exactly when one of the options set has the same residue modulo 1000
as `B`.  So it fails when `B` itself was set, and setting options whose residues
differ from that of `B` never makes it fail. -/
theorem C9_unset_check_is_membership_modulo_1000 (engine : EngineStatus)
    (fuzz f : FUZZ_DATA) (calls : List SetoptCall) (B : Nat)
    (h0 : ∀ i, fuzz.options i = 0)
    (ha : apply_options engine fuzz calls = some f) :
    (FCHECK_OPTION_UNSET f B = some (Flow.exit 255 f)
      ↔ ∃ c ∈ calls, c.OPTNAME % 1000 = B % 1000) ∧
    ((∃ c ∈ calls, c.OPTNAME = B) → FCHECK_OPTION_UNSET f B = some (Flow.exit 255 f)) ∧
    ((∀ c ∈ calls, c.OPTNAME % 1000 ≠ B % 1000) →
      B % 1000 < FUZZ_CURLOPT_TRACKER_SPACE → FCHECK_OPTION_UNSET f B = some (Flow.next f)) := by
  have hcells := apply_options_cells engine calls fuzz f ha (B % 1000)
  have hiff : FCHECK_OPTION_UNSET f B = some (Flow.exit 255 f)
      ↔ ∃ c ∈ calls, c.OPTNAME % 1000 = B % 1000 := by
    rw [FCHECK_OPTION_UNSET_eq]
    by_cases hex : ∃ c ∈ calls, c.OPTNAME % 1000 = B % 1000
    · simp [hcells.1 hex, hex]
    · rw [hcells.2 hex]
      unfold tracker_cell
      by_cases hi : B % 1000 < FUZZ_CURLOPT_TRACKER_SPACE
      · simp [hi, h0, hex]
      · simp [hi, hex]
  refine ⟨hiff, ?_, ?_⟩
  · rintro ⟨c, hc, hcB⟩
    exact hiff.mpr ⟨c, hc, by rw [hcB]⟩
  · intro hall hi
    have hex : ¬ ∃ c ∈ calls, c.OPTNAME % 1000 = B % 1000 := by
      rintro ⟨c, hc, hcB⟩
      exact hall c hc hcB
    rw [FCHECK_OPTION_UNSET_eq, hcells.2 hex]
    simp [tracker_cell, hi, h0]

/-- C9 as amended, after `CURLOPT_HTTPAUTH` was set on zeroed run data: the check for
`CURLOPT_HTTPAUTH` fails and the check for `CURLOPT_URL` passes. -/
theorem C9_unset_check_is_membership_modulo_1000_witness :
    FCHECK_OPTION_UNSET fuzz_after_httpauth CURLOPT_HTTPAUTH
      = some (Flow.exit 255 fuzz_after_httpauth) ∧
    FCHECK_OPTION_UNSET fuzz_after_httpauth CURLOPT_URL
      = some (Flow.next fuzz_after_httpauth) :=
  ⟨(C9_unset_check_is_membership_modulo_1000 engine_accept_all zeroed_fuzz_data
      fuzz_after_httpauth [SetoptCall.mk CURLOPT_HTTPAUTH (OptValue.u32 1)] CURLOPT_HTTPAUTH
      (fun _ => rfl) rfl).2.1 ⟨_, List.mem_singleton.mpr rfl, rfl⟩,
   (C9_unset_check_is_membership_modulo_1000 engine_accept_all zeroed_fuzz_data
      fuzz_after_httpauth [SetoptCall.mk CURLOPT_HTTPAUTH (OptValue.u32 1)] CURLOPT_URL
      (fun _ => rfl) rfl).2.2
      (fun c hc => by rw [List.mem_singleton.mp hc]; decide) (by decide)⟩

end CurlFuzzer
